import Mathlib

/-!
Verification of the trustification/bombastic indexing and search core.

This file shallowly embeds the parts of the repository that the checked
properties talk about:

* the bombastic indexer control loop (`bombastic/indexer/src/indexer.rs`,
  function `run`), embedded as a step function over an explicit loop state,
  with the outcomes of the fallible external calls (storage, event bus,
  snapshot serialization) supplied as data;
* the vulnerabilities (VEX/CSAF) document mapper and hit processing
  (`vexination/index/src/lib.rs`, `index_doc` / `process_hit`);
* the SBOM document mappers (`bombastic/index/src/lib.rs`,
  `index_cyclonedx` / `index_spdx` / `index_cyclonedx_component`);
* the two query compilers (`bombastic/index/src/lib.rs` and
  `vexination/index/src/lib.rs`, `prepare_query` / `resource2query`, and
  `vexination/index/src/search.rs`, `default_scopes` / `parse_query`).

Pure Rust functions become Lean functions; the event-driven loop becomes a
function from a state and a stimulus to an outcome together with a trace of
the externally visible actions it performed, in order.  Fallible calls are
`Except`-valued.  Helpers of the repository's `index` crate that are not
among the provided sources (`term2query`, `create_boolean_query`,
`create_date_query`, `primary2occur`) are modelled from the specification
and are marked as such in their doc comments.
-/

/-! # Part A: the bombastic indexer control loop

Embedding of `run` from `bombastic/indexer/src/indexer.rs`.  One iteration
of the `select!` loop consumes one stimulus: either a polled bus event (or
poll miss/poll error) or a timer tick.  The outcomes of the external calls
made while handling the stimulus are part of the stimulus data.  Each
handler returns the successor state together with the ordered list of
externally visible actions it performed; `StepOutcome.err` models an error
propagated out of `run` by the `?` operator, `StepOutcome.panicked` models
a panic of `Option::unwrap` on `None`. -/

deriving instance DecidableEq for Except

/-- Change type of a storage record (`trustification_storage::EventType`);
only `Put` is acted on by the indexer. -/
inductive EventType where
  | put
  | other
deriving DecidableEq

/-- One storage-change record of a decoded bus-event payload, together with
the outcomes of the external calls the loop would make for it:
`getResult` for `storage.get_for_event`, `parseOk` for `SBOM::parse`,
`indexResult` for `indexer.index`, and the two `bus.send` outcomes for the
`indexed` and `failed` side topics. -/
structure StorageRecord where
  key : String
  eventType : EventType
  getResult : Except Unit Unit
  parseOk : Bool
  indexResult : Except Unit Unit
  sendIndexedResult : Except Unit Unit
  sendFailedResult : Except Unit Unit
deriving DecidableEq

/-- A bus event: `payload` is `none` when `event.payload()` is `None`,
`some (Except.error ())` when `storage.decode_event` fails, and
`some (Except.ok records)` when it decodes into `records`. -/
structure BusEvent where
  payload : Option (Except Unit (List StorageRecord))
deriving DecidableEq

/-- The loop-owned mutable state of `run`: the dirty-event counter
(`events`), the writer-session slot (`indexer`, a `Some`/`None` option as
in the source, carrying an abstract session id), and the pending
acknowledgement list (`uncommitted_events`). -/
structure LoopState where
  events : Nat
  indexer : Option Nat
  uncommitted : List BusEvent
deriving DecidableEq

/-- Externally visible actions of one loop iteration, in program order. -/
inductive LoopAction where
  | snapshot (ok : Bool)
  | putIndex (ok : Bool)
  | busCommit (batch : List BusEvent) (ok : Bool)
  | openWriter (ok : Bool)
  | sendIndexed (key : String) (ok : Bool)
  | sendFailed (key : String) (ok : Bool)
deriving DecidableEq

/-- Outcome of one loop iteration: a successor state, an error propagated
out of `run` by `?`, or a panic (an `unwrap` of `None`). -/
inductive StepOutcome (α : Type) where
  | ok (value : α)
  | err
  | panicked
deriving DecidableEq

/-- Outcomes of the external calls made while handling one timer tick:
`index.snapshot(..)` (serialization), `storage.put_index`,
`consumer.commit`, and `index.indexer()` (opening the new writer). -/
structure TickEnv where
  snapshotResult : Except Unit Nat
  putIndexResult : Except Unit Unit
  commitResult : Except Unit Unit
  newIndexerResult : Except Unit Nat
deriving DecidableEq

/-- `indexer.replace(index.indexer()?)` — executed after the `put_index`
match (on both of its branches); a failure propagates out of `run`. -/
def replaceWriter (st : LoopState) (env : TickEnv) (trace : List LoopAction) :
    StepOutcome LoopState × List LoopAction :=
  match env.newIndexerResult with
  | Except.ok w => (StepOutcome.ok { st with indexer := some w }, trace ++ [LoopAction.openWriter true])
  | Except.error _ => (StepOutcome.err, trace ++ [LoopAction.openWriter false])

/-- The timer-tick arm of the `select!` loop in `run`
(`bombastic/indexer/src/indexer.rs:84-117`). -/
def handleTick (st : LoopState) (env : TickEnv) : StepOutcome LoopState × List LoopAction :=
  if st.events > 0 then
    match st.indexer with
    | none => (StepOutcome.panicked, [])
    | some _ =>
      let st1 : LoopState := { st with indexer := none }
      match env.snapshotResult with
      | Except.ok _ =>
        match env.putIndexResult with
        | Except.ok _ =>
          match env.commitResult with
          | Except.ok _ =>
            replaceWriter { st1 with uncommitted := [], events := 0 } env
              [LoopAction.snapshot true, LoopAction.putIndex true, LoopAction.busCommit st1.uncommitted true]
          | Except.error _ =>
            replaceWriter { st1 with events := 0 } env
              [LoopAction.snapshot true, LoopAction.putIndex true, LoopAction.busCommit st1.uncommitted false]
        | Except.error _ =>
          replaceWriter st1 env [LoopAction.snapshot true, LoopAction.putIndex false]
      | Except.error _ => (StepOutcome.ok st1, [LoopAction.snapshot false])
  else
    (StepOutcome.ok st, [])

/-- Processing of one storage-change record inside the event arm of `run`
(`bombastic/indexer/src/indexer.rs:38-72`).  `isIndex` embeds
`storage.is_index`. -/
def handleRecord (isIndex : String → Bool) (st : LoopState) (r : StorageRecord) :
    StepOutcome LoopState × List LoopAction :=
  if r.eventType = EventType.put then
    if isIndex r.key then (StepOutcome.ok st, [])
    else
      match r.getResult with
      | Except.ok _ =>
        if r.parseOk then
          match st.indexer with
          | none => (StepOutcome.panicked, [])
          | some _ =>
            match r.indexResult with
            | Except.ok _ =>
              match r.sendIndexedResult with
              | Except.ok _ =>
                (StepOutcome.ok { st with events := st.events + 1 }, [LoopAction.sendIndexed r.key true])
              | Except.error _ => (StepOutcome.err, [LoopAction.sendIndexed r.key false])
            | Except.error _ =>
              match r.sendFailedResult with
              | Except.ok _ => (StepOutcome.ok st, [LoopAction.sendFailed r.key true])
              | Except.error _ => (StepOutcome.err, [LoopAction.sendFailed r.key false])
        else (StepOutcome.ok st, [])
      | Except.error _ => (StepOutcome.ok st, [])
  else (StepOutcome.ok st, [])

/-- The `for data in data.records` loop of the event arm: records are
processed left to right; an error or panic aborts the iteration. -/
def handleRecords (isIndex : String → Bool) (st : LoopState) :
    List StorageRecord → StepOutcome LoopState × List LoopAction
  | [] => (StepOutcome.ok st, [])
  | r :: rs =>
    match handleRecord isIndex st r with
    | (StepOutcome.ok st', trace) =>
      let rest := handleRecords isIndex st' rs
      (rest.1, trace ++ rest.2)
    | other => other

/-- The event arm of the `select!` loop for `Ok(Some(event))`
(`bombastic/indexer/src/indexer.rs:35-76`): the payload is decoded and its
records processed, then the triggering event is pushed onto the pending
acknowledgement list regardless of per-record success. -/
def handleEvent (isIndex : String → Bool) (st : LoopState) (ev : BusEvent) :
    StepOutcome LoopState × List LoopAction :=
  let inner : StepOutcome LoopState × List LoopAction :=
    match ev.payload with
    | some (Except.ok records) => handleRecords isIndex st records
    | some (Except.error _) => (StepOutcome.ok st, [])
    | none => (StepOutcome.ok st, [])
  match inner with
  | (StepOutcome.ok st', trace) =>
    (StepOutcome.ok { st' with uncommitted := st'.uncommitted ++ [ev] }, trace)
  | other => other

/-- One stimulus of the `select!` loop: a delivered event (`Ok(Some(..))`),
an empty poll (`Ok(None)`), a poll error (`Err(..)`), or a timer tick. -/
inductive Stimulus where
  | event (ev : BusEvent)
  | noEvent
  | pollError
  | tick (env : TickEnv)

/-- One full iteration of the `select!` loop of `run`. -/
def loopStep (isIndex : String → Bool) (st : LoopState) :
    Stimulus → StepOutcome LoopState × List LoopAction
  | Stimulus.event ev => handleEvent isIndex st ev
  | Stimulus.noEvent => (StepOutcome.ok st, [])
  | Stimulus.pollError => (StepOutcome.ok st, [])
  | Stimulus.tick env => handleTick st env

/-! ## Concrete instances for the loop claims -/

/-- A concrete bus event with no payload. -/
def evA : BusEvent := { payload := none }

/-- A concrete loop state with a nonzero dirty counter, an open writer
session and one pending event. -/
def stA : LoopState := { events := 2, indexer := some 0, uncommitted := [evA] }

/-- A tick environment where the storage put of the snapshot fails. -/
def envPutFail : TickEnv :=
  { snapshotResult := Except.ok 7, putIndexResult := Except.error ()
    commitResult := Except.ok (), newIndexerResult := Except.ok 1 }

/-- A tick environment where serializing the snapshot itself fails. -/
def envSnapFail : TickEnv :=
  { snapshotResult := Except.error (), putIndexResult := Except.ok ()
    commitResult := Except.ok (), newIndexerResult := Except.ok 1 }

/-- A storage-change record for a plain document put whose fetch, parse,
indexing and side publishes all succeed. -/
def recA : StorageRecord :=
  { key := "doc1", eventType := EventType.put, getResult := Except.ok ()
    parseOk := true, indexResult := Except.ok ()
    sendIndexedResult := Except.ok (), sendFailedResult := Except.ok () }

/-- `recA`, except that the publish to the `indexed` side topic fails. -/
def recSendFail : StorageRecord :=
  { key := "doc1", eventType := EventType.put, getResult := Except.ok ()
    parseOk := true, indexResult := Except.ok ()
    sendIndexedResult := Except.error (), sendFailedResult := Except.ok () }

/-- A bus event whose payload decodes into the single record `recA`. -/
def evB : BusEvent := { payload := some (Except.ok [recA]) }

/-- A bus event whose payload decodes into the single record `recSendFail`. -/
def evSendFail : BusEvent := { payload := some (Except.ok [recSendFail]) }

/-- A storage in which no key is the index snapshot object. -/
def noIndexKey : String → Bool := fun _ => false

/-- C1: on a timer tick, the bus commit of the pending-event batch happens
only when the storage put of the snapshot returned Ok (and then strictly
after it in program order), and the committed batch is exactly the pending
list; if the put fails, no bus commit occurs and neither the dirty counter
nor the pending list is reset. -/
theorem C1_ack_only_after_durable_snapshot (st : LoopState) (env : TickEnv) :
    (∀ batch b, LoopAction.busCommit batch b ∈ (handleTick st env).2 →
        env.putIndexResult = Except.ok () ∧ batch = st.uncommitted ∧
        ∃ i j : Nat, i < j ∧ (handleTick st env).2[i]? = some (LoopAction.putIndex true) ∧
          (handleTick st env).2[j]? = some (LoopAction.busCommit batch b)) ∧
    (env.putIndexResult = Except.error () →
        (∀ batch b, LoopAction.busCommit batch b ∉ (handleTick st env).2) ∧
        ∀ st', (handleTick st env).1 = StepOutcome.ok st' →
          st'.events = st.events ∧ st'.uncommitted = st.uncommitted) := by
  obtain ⟨events, indexer, uncommitted⟩ := st
  obtain ⟨snap, put, com, newIdx⟩ := env
  rcases events with _ | n
  · simp [handleTick]
  rcases indexer with _ | w
  · simp [handleTick]
  rcases snap with ⟨⟩ | s
  · simp [handleTick]
  rcases put with ⟨⟩ | pu
  · rcases newIdx with ⟨⟩ | w'
    · simp [handleTick, replaceWriter]
    · simp [handleTick, replaceWriter]
  · rcases com with ⟨⟩ | cu
    · rcases newIdx with ⟨⟩ | w'
      · constructor
        · intro batch b hmem
          simp [handleTick, replaceWriter] at hmem
          obtain ⟨h1, h2⟩ := hmem
          subst h1; subst h2
          exact ⟨rfl, rfl, 1, 2, by norm_num,
            by simp [handleTick, replaceWriter], by simp [handleTick, replaceWriter]⟩
        · intro h; cases h
      · constructor
        · intro batch b hmem
          simp [handleTick, replaceWriter] at hmem
          obtain ⟨h1, h2⟩ := hmem
          subst h1; subst h2
          exact ⟨rfl, rfl, 1, 2, by norm_num,
            by simp [handleTick, replaceWriter], by simp [handleTick, replaceWriter]⟩
        · intro h; cases h
    · rcases newIdx with ⟨⟩ | w'
      · constructor
        · intro batch b hmem
          simp [handleTick, replaceWriter] at hmem
          obtain ⟨h1, h2⟩ := hmem
          subst h1; subst h2
          exact ⟨rfl, rfl, 1, 2, by norm_num,
            by simp [handleTick, replaceWriter], by simp [handleTick, replaceWriter]⟩
        · intro h; cases h
      · constructor
        · intro batch b hmem
          simp [handleTick, replaceWriter] at hmem
          obtain ⟨h1, h2⟩ := hmem
          subst h1; subst h2
          exact ⟨rfl, rfl, 1, 2, by norm_num,
            by simp [handleTick, replaceWriter], by simp [handleTick, replaceWriter]⟩
        · intro h; cases h

/-- Closed witness for `C1_ack_only_after_durable_snapshot`: at a concrete
state and a tick whose snapshot put fails, no bus commit of the pending
batch appears in the trace. -/
theorem C1_ack_witness :
    LoopAction.busCommit [evA] true ∉ (handleTick stA envPutFail).2 :=
  ((C1_ack_only_after_durable_snapshot stA envPutFail).2 rfl).1 [evA] true

/-- C3 (code bug): when snapshot serialization fails on a tick with a
nonzero dirty counter, the `Err` branch of `index.snapshot` skips
`indexer.replace(..)`, so the writer-session slot stays empty and the next
delivered put event panics at `indexer.as_mut().unwrap()`. -/
theorem C3_snapshot_error_leaves_writer_slot_empty :
    (handleTick stA envSnapFail).1 =
        StepOutcome.ok { events := 2, indexer := none, uncommitted := [evA] } ∧
    (handleEvent noIndexKey { events := 2, indexer := none, uncommitted := [evA] } evB).1 =
        StepOutcome.panicked :=
  ⟨rfl, rfl⟩

/-- The per-record situations in which `run` hits a `?` on `bus.send`: the
record is a non-snapshot put whose bytes were fetched and parsed, and the
publish to the `indexed` topic (after a successful index insert) or to the
`failed` topic (after a failed insert) returns an error. -/
def recordSendFails (isIndex : String → Bool) (r : StorageRecord) : Prop :=
  r.eventType = EventType.put ∧ isIndex r.key = false ∧
  r.getResult = Except.ok () ∧ r.parseOk = true ∧
  ((r.indexResult = Except.ok () ∧ r.sendIndexedResult = Except.error ()) ∨
   (r.indexResult = Except.error () ∧ r.sendFailedResult = Except.error ()))

/-- C4 (amended): with an open writer session, the only per-record failures
that propagate out of the loop are event-bus publish failures to the
`indexed`/`failed` side topics; on a tick, the only failure that propagates
out is a failure to open the new writer session after a successful snapshot
serialization.  All other storage, parse, polling, indexing, snapshot, put
and commit failures are looped past. -/
theorem C4_amended_error_isolation :
    (∀ (isIndex : String → Bool) (st : LoopState) (r : StorageRecord),
      st.indexer.isSome = true →
      ((handleRecord isIndex st r).1 = StepOutcome.err ↔ recordSendFails isIndex r)) ∧
    (∀ (st : LoopState) (env : TickEnv),
      ((handleTick st env).1 = StepOutcome.err ↔
        0 < st.events ∧ st.indexer.isSome = true ∧
          (∃ s, env.snapshotResult = Except.ok s) ∧
          env.newIndexerResult = Except.error ())) := by
  constructor
  · intro isIndex st r hsome
    obtain ⟨key, ety, getr, pok, idxr, sir, sfr⟩ := r
    rcases ety with _ | _
    · rcases hidx : isIndex key with _ | _
      · rcases getr with ⟨⟩ | gu
        · simp [handleRecord, recordSendFails, hidx]
        · rcases pok with _ | _
          · simp [handleRecord, recordSendFails, hidx]
          · rcases hst : st.indexer with _ | w
            · rw [hst] at hsome; cases hsome
            · rcases idxr with ⟨⟩ | iu
              · rcases sfr with ⟨⟩ | fu
                · simp [handleRecord, recordSendFails, hidx, hst]
                · simp [handleRecord, recordSendFails, hidx, hst]
              · rcases sir with ⟨⟩ | su
                · simp [handleRecord, recordSendFails, hidx, hst]
                · simp [handleRecord, recordSendFails, hidx, hst]
      · simp [handleRecord, recordSendFails, hidx]
    · simp [handleRecord, recordSendFails]
  · intro st env
    obtain ⟨events, indexer, uncommitted⟩ := st
    obtain ⟨snap, put, com, newIdx⟩ := env
    rcases events with _ | n
    · simp [handleTick]
    rcases indexer with _ | w
    · simp [handleTick]
    rcases snap with ⟨⟩ | s
    · simp [handleTick]
    rcases put with ⟨⟩ | pu
    · rcases newIdx with ⟨⟩ | w'
      · simp [handleTick, replaceWriter]
      · simp [handleTick, replaceWriter]
    · rcases com with ⟨⟩ | cu
      · rcases newIdx with ⟨⟩ | w'
        · simp [handleTick, replaceWriter]
        · simp [handleTick, replaceWriter]
      · rcases newIdx with ⟨⟩ | w'
        · simp [handleTick, replaceWriter]
        · simp [handleTick, replaceWriter]

/-- Closed witness for `C4_amended_error_isolation` at a concrete record
whose `indexed`-topic publish fails. -/
theorem C4_amended_witness :
    (handleRecord noIndexKey stA recSendFail).1 = StepOutcome.err ↔
      recordSendFails noIndexKey recSendFail :=
  C4_amended_error_isolation.1 noIndexKey stA recSendFail rfl

/-- C4 counterexample: processing a delivered event whose single record is
fetched, parsed and indexed successfully but whose publish to the `indexed`
side topic fails makes `run` propagate the error out of the loop (the `?`
operator), instead of logging and continuing as the claim states. -/
theorem C4_counterexample_send_error_terminates_loop :
    (loopStep noIndexKey stA (Stimulus.event evSendFail)).1 = StepOutcome.err :=
  rfl

/-! # Part B: the vulnerabilities (CSAF) document mapper

Embedding of `index_doc` and `process_hit` from
`vexination/index/src/lib.rs`, over a model of the `csaf` input type that
keeps exactly the fields the mapper reads.  Dates are modelled by their
millisecond timestamps (`Int`), CVSS scores by rationals. -/

/-- `csaf::document::Status`. -/
inductive CsafStatus where
  | draft
  | interim
  | final
deriving DecidableEq

/-- The fields of `csaf.document.tracking` read by the mapper. -/
structure Tracking where
  id : String
  status : CsafStatus
  initialReleaseDate : Int
  currentReleaseDate : Int
deriving DecidableEq

/-- `csaf.document`, restricted to the fields the mapper reads. -/
structure CsafDoc where
  tracking : Tracking
deriving DecidableEq

/-- `csaf::definitions::NoteCategory`, collapsed to the one distinction
`index_doc` makes. -/
inductive NoteCategory where
  | description
  | other
deriving DecidableEq

/-- One vulnerability note. -/
structure Note where
  category : NoteCategory
  text : String
deriving DecidableEq

/-- One `scores` entry; the mapper reads only `score.cvss_v3`, of which it
uses the severity string and the base score value. -/
structure Score where
  cvssV3 : Option (String × Rat)
deriving DecidableEq

/-- `csaf::definitions::ProductIdT`. -/
structure ProductIdT where
  val : String
deriving DecidableEq

/-- `vuln.product_status`, restricted to the two lists the mapper reads. -/
structure ProductStatusT where
  knownAffected : Option (List ProductIdT)
  fixed : Option (List ProductIdT)
deriving DecidableEq

/-- `csaf::definitions::ProductIdentificationHelper` (purl/cpe already
rendered to strings, as the mapper does with `to_string`). -/
structure ProductIdentificationHelper where
  cpe : Option String
  purl : Option String
deriving DecidableEq

/-- The part of a `FullProductName` the branch walk reads. -/
structure ProductNameT where
  productIdentificationHelper : Option ProductIdentificationHelper
deriving DecidableEq

/-- `csaf::definitions::Branch`; `BranchesT` is a list of these. -/
inductive Branch where
  | mk (name : String) (product : Option ProductNameT) (branches : Option (List Branch))

/-- One `product_tree.relationships` entry: the mapper reads
`r.full_product_name.product_id` and `r.product_reference`. -/
structure Relationship where
  fullProductNameId : String
  productReference : ProductIdT

/-- `csaf.product_tree`, restricted to the fields the mapper reads. -/
structure ProductTree where
  branches : Option (List Branch)
  relationships : Option (List Relationship)

/-- One CSAF vulnerability entry, restricted to the fields the mapper
reads. -/
structure Vulnerability where
  title : Option String
  cve : Option String
  scores : Option (List Score)
  productStatus : Option ProductStatusT
  notes : Option (List Note)
  discoveryDate : Option Int
  releaseDate : Option Int

/-- A parsed CSAF advisory, restricted to the fields the mapper reads. -/
structure Csaf where
  document : CsafDoc
  vulnerabilities : Option (List Vulnerability)
  productTree : Option ProductTree

/-- The `ProductPackage` record serialized into the `product_status`
field. -/
structure ProductPackage where
  cpe : Option String
  purl : Option String
deriving DecidableEq

/-- `find_product_identifier` (vexination/index/src/lib.rs:370-393):
depth-first walk over a branch list, returning the first value `f` yields
at a branch whose name equals the product id. -/
def findProductIdentifier (f : ProductIdentificationHelper → Option ProductPackage)
    (productId : ProductIdT) : List Branch → Option ProductPackage
  | [] => none
  | Branch.mk name product branches :: rest =>
    let here : Option ProductPackage :=
      if name = productId.val then
        match product with
        | some p =>
          match p.productIdentificationHelper with
          | some helper => f helper
          | none => none
        | none => none
      else none
    match here with
    | some r => some r
    | none =>
      match branches with
      | some bs =>
        match findProductIdentifier f productId bs with
        | some r => some r
        | none => findProductIdentifier f productId rest
      | none => findProductIdentifier f productId rest

/-- `find_product_ref` (vexination/index/src/lib.rs:395-404): the product
reference of the first relationship whose full product name id matches. -/
def findProductRef (tree : ProductTree) (productId : ProductIdT) : Option ProductIdT :=
  match tree.relationships with
  | some rs =>
    (rs.find? (fun r => r.fullProductNameId == productId.val)).map Relationship.productReference
  | none => none

/-- `find_product_package` (vexination/index/src/lib.rs:406-420). -/
def findProductPackage (csaf : Csaf) (productId : ProductIdT) : Option ProductPackage :=
  match csaf.productTree with
  | some tree =>
    match findProductRef tree productId with
    | some r =>
      match tree.branches with
      | some branches =>
        findProductIdentifier
          (fun helper => some { purl := helper.purl, cpe := helper.cpe }) r branches
      | none => none
    | none => none
  | none => none

/-- The JSON object the mapper stores in the `product_status` field: the
`known_affected` and `fixed` keys are inserted exactly when
`vuln.product_status` is present. -/
structure ProductStatusValue where
  knownAffected : Option (List ProductPackage)
  fixed : Option (List ProductPackage)
deriving DecidableEq

/-- Key lookup on the stored `product_status` JSON object. -/
def ProductStatusValue.get (ps : ProductStatusValue) (key : String) :
    Option (List ProductPackage) :=
  if key = "known_affected" then ps.knownAffected
  else if key = "fixed" then ps.fixed
  else none

/-- A tantivy `Document` restricted to the vulnerabilities schema of
`Index::new` (vexination/index/src/lib.rs:244-275): each field holds what
`doc.get_first(field)` returns for it. -/
structure VexDoc where
  id : Option String
  title : Option String
  description : Option String
  cve : Option String
  documentStatus : Option String
  productStatus : Option ProductStatusValue
  severity : Option String
  cvss : Option Rat
  advisoryInitial : Option Int
  advisoryCurrent : Option Int
  cveDiscovery : Option Int
  cveRelease : Option Int
deriving DecidableEq

/-- The document-status string of the advisory
(vexination/index/src/lib.rs:58-62). -/
def statusStr : CsafStatus → String
  | CsafStatus.draft => "draft"
  | CsafStatus.interim => "interim"
  | CsafStatus.final => "final"

/-- The `product_status` map built for one vulnerability entry
(vexination/index/src/lib.rs:91-117). -/
def productStatusValue (csaf : Csaf) (vuln : Vulnerability) : ProductStatusValue :=
  match vuln.productStatus with
  | some status =>
    { knownAffected := some ((status.knownAffected.getD []).filterMap (findProductPackage csaf))
      fixed := some ((status.fixed.getD []).filterMap (findProductPackage csaf)) }
  | none => { knownAffected := none, fixed := none }

/-- The body of the `for vuln in vulns` loop of `index_doc`
(vexination/index/src/lib.rs:65-173): the documents pushed for one entry.
A document is pushed exactly when `vuln.notes` is present; the severity and
score come from the first score entry carrying a CVSS v3 record, the
description from the first note of category description (empty string when
there is none). -/
def indexVulnDocs (csaf : Csaf) (vuln : Vulnerability) : List VexDoc :=
  let id := csaf.document.tracking.id
  let documentStatus := statusStr csaf.document.tracking.status
  let title := vuln.title.getD ""
  let cve := vuln.cve.getD ""
  let sevScore : String × Rat := ((vuln.scores.getD []).findSome? Score.cvssV3).getD ("", 0)
  let productStatus := productStatusValue csaf vuln
  match vuln.notes with
  | some notes =>
    let description :=
      ((notes.find? (fun n => n.category == NoteCategory.description)).map Note.text).getD ""
    [{ id := some id
       title := some title
       description := some description
       cve := some cve
       documentStatus := some documentStatus
       productStatus := some productStatus
       severity := some sevScore.1
       cvss := some sevScore.2
       advisoryInitial := some csaf.document.tracking.initialReleaseDate
       advisoryCurrent := some csaf.document.tracking.currentReleaseDate
       cveDiscovery := vuln.discoveryDate
       cveRelease := vuln.releaseDate }]
  | none => []

/-- `index_doc` for the vulnerabilities index
(vexination/index/src/lib.rs:55-176); the source returns `Ok(documents)`
unconditionally, so the embedding returns the plain list. -/
def vexIndexDoc (csaf : Csaf) : List VexDoc :=
  ((csaf.vulnerabilities.getD []).map (indexVulnDocs csaf)).flatten

/-- `trustification_index::Error`, restricted to the variants these sources
construct. -/
inductive SearchError where
  | notFound
  | parseFailure (msg : String)
deriving DecidableEq

/-- The vulnerabilities `SearchDocument` built by `process_hit`. -/
structure SearchDocumentV where
  advisory : String
  cve : String
  title : String
  description : String
  cvss : Rat
  release : Int
  affected : List ProductPackage
  fixed : List ProductPackage
deriving DecidableEq

/-- `process_hit` for the vulnerabilities index
(vexination/index/src/lib.rs:195-234): every one of the seven read fields
must be present, otherwise `Err(SearchError::NotFound)`.  Note the source
looks the affected list up under the key `"affected"`, not
`"known_affected"`. -/
def vexProcessHit (doc : VexDoc) : Except SearchError SearchDocumentV :=
  match doc.id with
  | some advisory =>
    match doc.cve with
    | some cve =>
      match doc.title with
      | some title =>
        match doc.description with
        | some description =>
          match doc.cvss with
          | some cvss =>
            match doc.productStatus with
            | some productStatus =>
              match doc.cveRelease with
              | some release =>
                Except.ok
                  { advisory := advisory, cve := cve, title := title
                    description := description, cvss := cvss, release := release
                    affected := (productStatus.get "affected").getD []
                    fixed := (productStatus.get "fixed").getD [] }
              | none => Except.error SearchError.notFound
            | none => Except.error SearchError.notFound
          | none => Except.error SearchError.notFound
        | none => Except.error SearchError.notFound
      | none => Except.error SearchError.notFound
    | none => Except.error SearchError.notFound
  | none => Except.error SearchError.notFound

/-! ## Claims about the vulnerabilities mapper -/

/-- Whether a vulnerability entry has at least one note of category
description (the condition the specification claims gates emission). -/
def hasDescriptionNote (vuln : Vulnerability) : Bool :=
  (vuln.notes.getD []).any (fun n => n.category == NoteCategory.description)

/-- A vulnerability entry with no CVE and no description-category note,
but with a present (non-description) notes list. -/
def vulnNoDesc : Vulnerability :=
  { title := some "title text", cve := none, scores := none, productStatus := none
    notes := some [{ category := NoteCategory.other, text := "summary text" }]
    discoveryDate := none, releaseDate := none }

/-- A concrete advisory whose single vulnerability entry is `vulnNoDesc`. -/
def csafNoDesc : Csaf :=
  { document := { tracking := { id := "RHSA-1", status := CsafStatus.final
                                initialReleaseDate := 100, currentReleaseDate := 200 } }
    vulnerabilities := some [vulnNoDesc]
    productTree := none }

/-- Auxiliary: per entry, one document is pushed iff `notes` is present. -/
theorem indexVulnDocs_length (csaf : Csaf) (v : Vulnerability) :
    (indexVulnDocs csaf v).length = if v.notes.isSome then 1 else 0 := by
  cases hn : v.notes <;> simp [indexVulnDocs, hn]

/-- Auxiliary: fields of the document pushed for one entry. -/
theorem indexVulnDocs_fields (csaf : Csaf) (v : Vulnerability) :
    ∀ d ∈ indexVulnDocs csaf v,
      d.id = some csaf.document.tracking.id ∧ d.cveRelease = v.releaseDate := by
  intro d hd
  cases hn : v.notes with
  | none => simp [indexVulnDocs, hn] at hd
  | some ns =>
    simp [indexVulnDocs, hn] at hd
    subst hd
    exact ⟨rfl, rfl⟩

/-- C2 counterexample: a vulnerability entry with no CVE identifier and no
description-category note (but a present notes list) still yields one Index
Document, where the claim requires it to be skipped. -/
theorem C2_counterexample_entry_without_cve_or_description_indexed :
    vulnNoDesc.cve = none ∧ hasDescriptionNote vulnNoDesc = false ∧
    (vexIndexDoc csafNoDesc).length = 1 :=
  ⟨rfl, rfl, rfl⟩

/-- C2 (amended): `index_doc` emits exactly one Index Document per
vulnerability entry whose `notes` field is present — regardless of whether
the entry has a CVE identifier or a description note (these default to
empty strings) — and an entry whose `notes` field is absent is silently
skipped. -/
theorem C2_amended_one_doc_per_entry_with_notes (csaf : Csaf) :
    (vexIndexDoc csaf).length =
      ((csaf.vulnerabilities.getD []).filter (fun v => v.notes.isSome)).length := by
  have key : ∀ vulns : List Vulnerability,
      ((vulns.map (indexVulnDocs csaf)).flatten).length =
        (vulns.filter (fun v => v.notes.isSome)).length := by
    intro vulns
    induction vulns with
    | nil => rfl
    | cons v vs ih =>
      simp only [List.map_cons, List.flatten_cons, List.length_append, List.filter_cons, ih,
        indexVulnDocs_length]
      cases hn : v.notes with
      | none => simp [hn]
      | some ns => simp [hn]; omega
  cases hv : csaf.vulnerabilities with
  | none => simp [vexIndexDoc, hv]
  | some vulns => simpa [vexIndexDoc, hv] using key vulns

/-- Auxiliary: `process_hit` yields `NotFound` whenever one of the seven
fields it reads is absent from the stored document. -/
theorem vexProcessHit_error_of_missing (doc : VexDoc)
    (h : doc.id = none ∨ doc.cve = none ∨ doc.title = none ∨ doc.description = none ∨
         doc.cvss = none ∨ doc.productStatus = none ∨ doc.cveRelease = none) :
    vexProcessHit doc = Except.error SearchError.notFound := by
  obtain ⟨i, t, de, c, ds, ps, sv, cv, ai, ac, cd, cr⟩ := doc
  rcases i with _ | i
  · rfl
  rcases c with _ | c
  · rfl
  rcases t with _ | t
  · rfl
  rcases de with _ | de
  · rfl
  rcases cv with _ | cv
  · rfl
  rcases ps with _ | ps
  · rfl
  rcases cr with _ | cr
  · rfl
  simp at h

/-- C10: `process_hit` returns `Err(SearchError::NotFound)` for any stored
document lacking one of the id, cve, title, description, cvss,
product_status or cve_release fields; `index_doc` stores `cve_release`
exactly when the entry has a release date, so an indexed entry without a
release date is never returned as a search hit. -/
theorem C10_missing_release_date_never_a_hit :
    (∀ doc : VexDoc,
        doc.id = none ∨ doc.cve = none ∨ doc.title = none ∨ doc.description = none ∨
          doc.cvss = none ∨ doc.productStatus = none ∨ doc.cveRelease = none →
        vexProcessHit doc = Except.error SearchError.notFound) ∧
    (∀ (csaf : Csaf) (v : Vulnerability), ∀ d ∈ indexVulnDocs csaf v,
        d.cveRelease = v.releaseDate) ∧
    (∀ (csaf : Csaf), ∀ d ∈ vexIndexDoc csaf, d.cveRelease = none →
        vexProcessHit d = Except.error SearchError.notFound) := by
  refine ⟨vexProcessHit_error_of_missing, ?_, ?_⟩
  · intro csaf v d hd
    exact (indexVulnDocs_fields csaf v d hd).2
  · intro csaf d _ hnone
    exact vexProcessHit_error_of_missing d (by tauto)

/-- A stored document with every field absent. -/
def emptyVexDoc : VexDoc :=
  { id := none, title := none, description := none, cve := none, documentStatus := none
    productStatus := none, severity := none, cvss := none, advisoryInitial := none
    advisoryCurrent := none, cveDiscovery := none, cveRelease := none }

/-- Closed witness for `C10_missing_release_date_never_a_hit`. -/
theorem C10_witness :
    vexProcessHit emptyVexDoc = Except.error SearchError.notFound :=
  C10_missing_release_date_never_a_hit.1 emptyVexDoc (Or.inl rfl)

/-! # Part C: the SBOM document mappers

Embedding of `index_cyclonedx`, `index_spdx` and
`index_cyclonedx_component` from `bombastic/index/src/lib.rs`.  The two
external parsers the mappers call — `packageurl::PackageUrl::from_str` and
the RFC 3339 timestamp parse — are passed in as function arguments.  A
tantivy `Document` for the packages schema is modelled with one list of
values per schema field (`add_text`/`add_date` append; `get_first` is the
head). -/

/-- `cyclonedx_bom::models::hash::HashAlgorithm`, collapsed to the one
distinction the mapper makes. -/
inductive HashAlg where
  | sha256
  | other
deriving DecidableEq

/-- `cyclonedx_bom::models::license::LicenseChoice` as read by the mapper:
only a license with a plain name contributes a value. -/
inductive LicenseChoiceM where
  | licenseName (s : String)
  | licenseSpdxId (s : String)
  | expression (s : String)
deriving DecidableEq

/-- A parsed package URL (`packageurl::PackageUrl`), restricted to the
accessors the mappers call. -/
structure Purl where
  ty : String
  nspace : Option String
  name : String
  version : Option String
  qualifiers : List (String × String)
deriving DecidableEq

/-- A CycloneDX component, restricted to the fields the mapper reads
(purl already rendered to a string, as the mapper does). -/
structure CdxComponent where
  hashes : Option (List (HashAlg × String))
  purl : Option String
  description : Option String
  licenses : Option (List LicenseChoiceM)
  componentType : String
deriving DecidableEq

/-- CycloneDX metadata, restricted to the fields the mapper reads. -/
structure CdxMetadata where
  timestamp : Option String
  component : Option CdxComponent

/-- A CycloneDX BOM, restricted to the fields the mapper reads. -/
structure CdxBom where
  metadata : Option CdxMetadata
  components : Option (List CdxComponent)

/-- A tantivy `Document` restricted to the packages schema of `Index::new`
(bombastic/index/src/lib.rs:78-102): each field holds the list of values
added to it, in order. -/
structure PkgDoc where
  sbomId : List String
  dependent : List String
  cpe : List String
  name : List String
  purl : List String
  ptype : List String
  pnamespace : List String
  created : List Int
  pname : List String
  pversion : List String
  description : List String
  sha256 : List String
  license : List String
  supplier : List String
  qualifiers : List String
  classifier : List String
deriving DecidableEq

/-- `index_cyclonedx_component` (bombastic/index/src/lib.rs:227-289); the
source returns `Ok` unconditionally, so the embedding returns the plain
document. -/
def indexCyclonedxComponent (parsePurl : String → Option Purl) (id : String)
    (component : CdxComponent) (parent : Option String) : PkgDoc :=
  let purlParsed := component.purl.bind parsePurl
  { sbomId := [id]
    sha256 := (component.hashes.getD []).filterMap
        (fun h => if h.1 = HashAlg.sha256 then some h.2 else none)
    purl := component.purl.toList
    pname := (purlParsed.map (fun p => [p.name])).getD []
    name := (purlParsed.map (fun p => [p.name])).getD []
    pnamespace := (purlParsed.bind Purl.nspace).toList
    pversion := (purlParsed.bind Purl.version).toList
    qualifiers := (purlParsed.map (fun p => p.qualifiers.map Prod.snd)).getD []
    ptype := (purlParsed.map (fun p => [p.ty])).getD []
    description := component.description.toList
    license := (component.licenses.getD []).filterMap
        (fun l => match l with
          | LicenseChoiceM.licenseName s => some s
          | LicenseChoiceM.licenseSpdxId _ => none
          | LicenseChoiceM.expression _ => none)
    classifier := [component.componentType]
    dependent := parent.toList
    cpe := []
    created := []
    supplier := [] }

/-- `doc.add_date(created, ..)` applied when the metadata timestamp parsed
(bombastic/index/src/lib.rs:204-206 and 217-219). -/
def addCreated (doc : PkgDoc) (created : Option Int) : PkgDoc :=
  match created with
  | some c => { doc with created := doc.created ++ [c] }
  | none => doc

/-- `index_cyclonedx` (bombastic/index/src/lib.rs:189-225): one document
for the metadata component when present (with no parent), then one
document per listed component, all with the metadata component's purl as
parent and the parsed metadata timestamp as creation date. -/
def indexCyclonedx (parseTs : String → Option Int) (parsePurl : String → Option Purl)
    (id : String) (bom : CdxBom) : List PkgDoc :=
  let created : Option Int := (bom.metadata.bind CdxMetadata.timestamp).bind parseTs
  let parent : Option String := (bom.metadata.bind CdxMetadata.component).bind CdxComponent.purl
  let rootDocs : List PkgDoc :=
    match bom.metadata.bind CdxMetadata.component with
    | some component => [addCreated (indexCyclonedxComponent parsePurl id component none) created]
    | none => []
  let componentDocs : List PkgDoc :=
    (bom.components.getD []).map
      (fun component => addCreated (indexCyclonedxComponent parsePurl id component parent) created)
  rootDocs ++ componentDocs

/-- One SPDX external reference. -/
structure SpdxExternalRef where
  referenceType : String
  referenceLocator : String
deriving DecidableEq

/-- `spdx_rs::models::Algorithm`, collapsed to the one distinction the
mapper makes. -/
inductive ChecksumAlg where
  | sha256
  | other
deriving DecidableEq

/-- An SPDX package, restricted to the fields the mapper reads (the
declared license already rendered to a string). -/
structure SpdxPackage where
  packageSpdxIdentifier : String
  packageSummaryDescription : Option String
  externalReference : List SpdxExternalRef
  packageName : String
  packageChecksum : List (ChecksumAlg × String)
  declaredLicense : String
  packageSupplier : Option String

/-- SPDX document creation information, restricted to what the mapper
reads. -/
structure SpdxDocCreationInfo where
  documentDescribes : List String
  created : Int

/-- An SPDX document, restricted to the fields the mapper reads. -/
structure Spdx where
  documentCreationInformation : SpdxDocCreationInfo
  packageInformation : List SpdxPackage

/-- The `parents` list of `index_spdx`
(bombastic/index/src/lib.rs:107-119): all external-reference locators of
the packages listed in `document_describes`. -/
def spdxParents (bom : Spdx) : List String :=
  ((bom.packageInformation.filter
      (fun p => bom.documentCreationInformation.documentDescribes.contains
        p.packageSpdxIdentifier)).map
    (fun p => p.externalReference.map SpdxExternalRef.referenceLocator)).flatten

/-- The document built for one non-described SPDX package and one parent
locator (body of the nested loops, bombastic/index/src/lib.rs:127-182). -/
def indexSpdxPackageDoc (parsePurl : String → Option Purl) (id : String)
    (created : Int) (package : SpdxPackage) (parent : String) : PkgDoc :=
  let purlRefs := package.externalReference.filter (fun r => r.referenceType == "purl")
  let parsed := purlRefs.filterMap (fun r => parsePurl r.referenceLocator)
  { description := package.packageSummaryDescription.toList
    created := [created]
    cpe := ((package.externalReference.filter
        (fun r => r.referenceType == "cpe22type")).map SpdxExternalRef.referenceLocator)
    purl := purlRefs.map SpdxExternalRef.referenceLocator
    pname := parsed.map Purl.name
    pnamespace := parsed.filterMap Purl.nspace
    pversion := parsed.filterMap Purl.version
    qualifiers := (parsed.map (fun p => p.qualifiers.map Prod.snd)).flatten
    ptype := parsed.map Purl.ty
    name := [package.packageName]
    sha256 := package.packageChecksum.filterMap
        (fun c => if c.1 = ChecksumAlg.sha256 then some c.2 else none)
    license := [package.declaredLicense]
    dependent := [parent]
    supplier := package.packageSupplier.toList
    sbomId := [id]
    classifier := [] }

/-- `index_spdx` (bombastic/index/src/lib.rs:104-187): for every package
not listed in `document_describes`, one document per parent locator. -/
def indexSpdx (parsePurl : String → Option Purl) (id : String) (bom : Spdx) : List PkgDoc :=
  let parents := spdxParents bom
  let created := bom.documentCreationInformation.created
  ((bom.packageInformation.filter
      (fun p => !(bom.documentCreationInformation.documentDescribes.contains
        p.packageSpdxIdentifier))).map
    (fun p => parents.map (indexSpdxPackageDoc parsePurl id created p))).flatten

/-- The `SBOM` enum of `bombastic/index/src/lib.rs:33-36`. -/
inductive SBOM where
  | cyclonedx (bom : CdxBom)
  | spdx (bom : Spdx)

/-- `index_doc` of the packages index (bombastic/index/src/lib.rs:412-417),
dispatching on the SBOM format. -/
def sbomIndexDoc (parseTs : String → Option Int) (parsePurl : String → Option Purl)
    (id : String) : SBOM → List PkgDoc
  | SBOM.cyclonedx bom => indexCyclonedx parseTs parsePurl id bom
  | SBOM.spdx bom => indexSpdx parsePurl id bom

/-! ## Claims about the SBOM mappers -/

/-- 1 when the BOM has a metadata (root) component, else 0. -/
def cdxRootCount (bom : CdxBom) : Nat :=
  match bom.metadata.bind CdxMetadata.component with
  | some _ => 1
  | none => 0

/-- The packages of an SPDX document not listed in `document_describes`
(the "real", non-root packages). -/
def spdxNonDescribed (bom : Spdx) : List SpdxPackage :=
  bom.packageInformation.filter
    (fun p => !(bom.documentCreationInformation.documentDescribes.contains
      p.packageSpdxIdentifier))

/-- C5 (amended): the CycloneDX mapper emits one document for the metadata
(root) component when present plus one per listed component — N + 1
documents for N listed components when a root exists, not at most N — and
the SPDX mapper emits one document per (non-described package, root
external reference) pair — N × P documents, not at most one per package. -/
theorem C5_amended_mapper_counts (parseTs : String → Option Int)
    (parsePurl : String → Option Purl) (id : String) :
    (∀ bom : CdxBom,
      (indexCyclonedx parseTs parsePurl id bom).length =
        cdxRootCount bom + (bom.components.getD []).length) ∧
    (∀ bom : Spdx,
      (indexSpdx parsePurl id bom).length =
        (spdxNonDescribed bom).length * (spdxParents bom).length) := by
  constructor
  · intro bom
    cases h : bom.metadata.bind CdxMetadata.component <;>
      simp [indexCyclonedx, cdxRootCount, h, Nat.add_comm]
  · intro bom
    simp only [indexSpdx, spdxNonDescribed, List.length_flatten, List.map_map]
    have : ∀ l : List SpdxPackage,
        (l.map (List.length ∘ fun p =>
          (spdxParents bom).map (indexSpdxPackageDoc parsePurl id
            bom.documentCreationInformation.created p))).sum =
          l.length * (spdxParents bom).length := by
      intro l
      induction l with
      | nil => simp
      | cons p ps ih => simp [ih, Nat.succ_mul, Nat.add_comm]
    exact this _

/-- A CycloneDX component used as the root (metadata) component. -/
def componentRoot : CdxComponent :=
  { hashes := none, purl := some "pkg:rpm/root@1.0", description := none
    licenses := none, componentType := "application" }

/-- A BOM with a metadata component and no listed components. -/
def bomRootOnly : CdxBom :=
  { metadata := some { timestamp := none, component := some componentRoot }
    components := none }

/-- Purl parsing that always fails (irrelevant to the counts). -/
def noPurlParse : String → Option Purl := fun _ => none

/-- Timestamp parsing that always fails (irrelevant to the counts). -/
def noTsParse : String → Option Int := fun _ => none

/-- C5 counterexample: a CycloneDX BOM with a metadata (root) component and
zero listed components has N = 0 real components but maps to 1 Index
Document — the mapper does emit a document for the root component. -/
theorem C5_counterexample_root_component_document :
    (bomRootOnly.components.getD []).length = 0 ∧
    (indexCyclonedx noTsParse noPurlParse "sbom-1" bomRootOnly).length = 1 :=
  ⟨rfl, rfl⟩

/-- C6: every Index Document produced by the SBOM mappers carries
`sbom_id = [id]` (the owning document's identifier, non-empty whenever the
identifier is), and every Index Document produced by the advisory mapper
carries `id = csaf.document.tracking.id`. -/
theorem C6_documents_carry_owner_identifier :
    (∀ (parseTs : String → Option Int) (parsePurl : String → Option Purl) (id : String)
        (sbom : SBOM), ∀ d ∈ sbomIndexDoc parseTs parsePurl id sbom, d.sbomId = [id]) ∧
    (∀ csaf : Csaf, ∀ d ∈ vexIndexDoc csaf, d.id = some csaf.document.tracking.id) := by
  constructor
  · intro parseTs parsePurl id sbom d hd
    cases sbom with
    | cyclonedx bom =>
      simp only [sbomIndexDoc, indexCyclonedx, List.mem_append, List.mem_map] at hd
      rcases hd with hd | ⟨c, _, hd⟩
      · rcases h : bom.metadata.bind CdxMetadata.component with _ | component <;>
          rw [h] at hd <;> simp at hd
        subst hd
        cases hc : (bom.metadata.bind CdxMetadata.timestamp).bind parseTs <;>
          simp [addCreated, hc, indexCyclonedxComponent]
      · subst hd
        cases hc : (bom.metadata.bind CdxMetadata.timestamp).bind parseTs <;>
          simp [addCreated, hc, indexCyclonedxComponent]
    | spdx bom =>
      simp only [sbomIndexDoc, indexSpdx, List.mem_flatten, List.mem_map] at hd
      obtain ⟨docs, ⟨p, _, hdocs⟩, hdin⟩ := hd
      subst hdocs
      obtain ⟨parent, _, hd⟩ := List.mem_map.mp hdin
      subst hd
      rfl
  · intro csaf d hd
    simp only [vexIndexDoc, List.mem_flatten, List.mem_map] at hd
    obtain ⟨docs, ⟨v, _, hdocs⟩, hdin⟩ := hd
    subst hdocs
    exact (indexVulnDocs_fields csaf v d hdin).1

/-- The single document `index_doc` produces for `csafNoDesc`. -/
def docC6 : VexDoc :=
  { id := some "RHSA-1", title := some "title text", description := some ""
    cve := some "", documentStatus := some "final"
    productStatus := some { knownAffected := none, fixed := none }
    severity := some "", cvss := some 0, advisoryInitial := some 100
    advisoryCurrent := some 200, cveDiscovery := none, cveRelease := none }

/-- Closed witness for `C6_documents_carry_owner_identifier` at the
concrete advisory `csafNoDesc`. -/
theorem C6_witness : docC6.id = some csafNoDesc.document.tracking.id :=
  C6_documents_carry_owner_identifier.2 csafNoDesc docC6 (by decide)

/-! # Part D: the query compilers

Embedding of `prepare_query` and `resource2query` of both indexes, and of
`default_scopes` / `parse_query` of `vexination/index/src/search.rs`.  The
sikula term tree and the tantivy query shapes these sources construct are
modelled explicitly; the sikula string lexer is external input and is
passed in as a function.  The helpers of the repository's `index` crate
(`term2query`, `create_boolean_query`, `create_date_query`,
`primary2occur`) are not among the provided sources and are modelled from
the specification, as marked below. -/

/-- `tantivy::query::Occur`. -/
inductive TOccur where
  | must
  | should
  | mustNot
deriving DecidableEq

/-- A range-query bound (`std::ops::Bound`). -/
inductive QBound (α : Type) where
  | unbounded
  | included (x : α)
  | excluded (x : α)
deriving DecidableEq

/-- The tantivy query shapes constructed by these sources. -/
inductive TQuery where
  | all
  | termQ (field : String) (text : String)
  | rangeF64 (field : String) (lower upper : QBound Rat)
  | rangeDate (field : String) (lower upper : QBound Int)
  | boolean (clauses : List (TOccur × TQuery))

/-- Whether a value satisfies a lower bound. -/
def lowerOk {α : Type} [LinearOrder α] : QBound α → α → Bool
  | QBound.unbounded, _ => true
  | QBound.included a, x => decide (a ≤ x)
  | QBound.excluded a, x => decide (a < x)

/-- Whether a value satisfies an upper bound. -/
def upperOk {α : Type} [LinearOrder α] : QBound α → α → Bool
  | QBound.unbounded, _ => true
  | QBound.included b, x => decide (x ≤ b)
  | QBound.excluded b, x => decide (x < b)

/-- A committed document as the engine sees it while evaluating a query:
term containment per field, and the fast f64/date value per field. -/
structure DocView where
  hasTerm : String → String → Bool
  f64Val : String → Option Rat
  dateVal : String → Option Int

/-- Whether a clause list contains a Must clause. -/
def clausesHasMust : List (TOccur × TQuery) → Bool
  | [] => false
  | (TOccur.must, _) :: _ => true
  | _ :: rest => clausesHasMust rest

mutual

/-- Modelled from the spec: the match semantics of the engine's query
primitives (tantivy, an external collaborator, specified at its interface):
`AllQuery` matches everything; a term query matches when the document holds
the term in the field; a range query matches when the document's field
value lies within the bounds; a boolean query matches when all Must
clauses match, no MustNot clause matches, and — when there is no Must
clause — at least one Should clause matches (so a boolean query with no
clauses matches nothing). -/
def TQuery.matches (view : DocView) : TQuery → Bool
  | TQuery.all => true
  | TQuery.termQ f t => view.hasTerm f t
  | TQuery.rangeF64 f lo hi =>
    match view.f64Val f with
    | some x => lowerOk lo x && upperOk hi x
    | none => false
  | TQuery.rangeDate f lo hi =>
    match view.dateVal f with
    | some x => lowerOk lo x && upperOk hi x
    | none => false
  | TQuery.boolean clauses =>
    clausesMustAll view clauses && !(clausesMustNotAny view clauses) &&
      (clausesHasMust clauses || clausesShouldAny view clauses)

/-- All Must clauses match. -/
def clausesMustAll (view : DocView) : List (TOccur × TQuery) → Bool
  | [] => true
  | (TOccur.must, q) :: rest => TQuery.matches view q && clausesMustAll view rest
  | (TOccur.should, _) :: rest => clausesMustAll view rest
  | (TOccur.mustNot, _) :: rest => clausesMustAll view rest

/-- Some MustNot clause matches. -/
def clausesMustNotAny (view : DocView) : List (TOccur × TQuery) → Bool
  | [] => false
  | (TOccur.mustNot, q) :: rest => TQuery.matches view q || clausesMustNotAny view rest
  | (TOccur.must, _) :: rest => clausesMustNotAny view rest
  | (TOccur.should, _) :: rest => clausesMustNotAny view rest

/-- Some Should clause matches. -/
def clausesShouldAny (view : DocView) : List (TOccur × TQuery) → Bool
  | [] => false
  | (TOccur.should, q) :: rest => TQuery.matches view q || clausesShouldAny view rest
  | (TOccur.must, _) :: rest => clausesShouldAny view rest
  | (TOccur.mustNot, _) :: rest => clausesShouldAny view rest

end

/-- `sikula::prelude::Primary`: an exact (`Equal`) or loose (`Partial` in
the source) primary expression. -/
inductive Primary where
  | equal (v : String)
  | inexact (v : String)
deriving DecidableEq

/-- A sikula date comparison (`Ordered<time::OffsetDateTime>`, timestamps
as ints). -/
inductive DOrdered where
  | less (t : Int)
  | lessEqual (t : Int)
  | greater (t : Int)
  | greaterEqual (t : Int)
  | range (lower upper : QBound Int)
deriving DecidableEq

/-- A sikula f64 comparison (`PartialOrdered<f64>`, scores as rationals). -/
inductive FOrdered where
  | less (e : Rat)
  | lessEqual (e : Rat)
  | greater (e : Rat)
  | greaterEqual (e : Rat)
  | range (lower upper : QBound Rat)
deriving DecidableEq

/-- `sikula::prelude::Term`: the parsed term tree. -/
inductive QTerm (α : Type) where
  | match_ (r : α)
  | not_ (t : QTerm α)
  | and_ (ts : List (QTerm α))
  | or_ (ts : List (QTerm α))

mutual

/-- Modelled from the spec: `sikula::prelude::Term::compact` (external
crate, not among the sources) — "compact (merge redundant nested
ANDs/ORs)": children are compacted recursively and a one-element
conjunction or disjunction collapses to its single element. -/
def QTerm.compact {α : Type} : QTerm α → QTerm α
  | QTerm.match_ r => QTerm.match_ r
  | QTerm.not_ t => QTerm.not_ t.compact
  | QTerm.and_ ts =>
    match compactList ts with
    | [t] => t
    | ts' => QTerm.and_ ts'
  | QTerm.or_ ts =>
    match compactList ts with
    | [t] => t
    | ts' => QTerm.or_ ts'

/-- Pointwise compaction of a term list. -/
def compactList {α : Type} : List (QTerm α) → List (QTerm α)
  | [] => []
  | t :: rest => t.compact :: compactList rest

end

mutual

/-- Truth of a term tree under a pointwise atom valuation: this is the
abstract match set of a term (a document is in the set of `or_ ts` iff it
is in the set of some member, etc.). -/
def QTerm.eval {α : Type} (sat : α → Bool) : QTerm α → Bool
  | QTerm.match_ r => sat r
  | QTerm.not_ t => !(t.eval sat)
  | QTerm.and_ ts => qtermsAll sat ts
  | QTerm.or_ ts => qtermsAny sat ts

/-- All members hold. -/
def qtermsAll {α : Type} (sat : α → Bool) : List (QTerm α) → Bool
  | [] => true
  | t :: rest => QTerm.eval sat t && qtermsAll sat rest

/-- Some member holds. -/
def qtermsAny {α : Type} (sat : α → Bool) : List (QTerm α) → Bool
  | [] => false
  | t :: rest => QTerm.eval sat t || qtermsAny sat rest

end

/-- Modelled from the spec: `primary2occur` from the repository's `index`
crate (not among the provided sources): an exact primary lowers to a Must
occur on that one clause, a loose primary to a Should occur, each carrying
the primary's text. -/
def primary2occur : Primary → TOccur × String
  | Primary.equal v => (TOccur.must, v)
  | Primary.inexact v => (TOccur.should, v)

/-- Modelled from the spec: `create_boolean_query` from the `index` crate
(not among the provided sources): a boolean query holding the single given
occur/term clause. -/
def create_boolean_query (occur : TOccur) (field : String) (text : String) : TQuery :=
  TQuery.boolean [(occur, TQuery.termQ field text)]

/-- Modelled from the spec: `create_date_query` from the `index` crate
(not among the provided sources): a date comparison lowers to a range
query with the operator's exact bounds — `<` exclusive upper, `<=`
inclusive upper, `>`/`>=` symmetric on the lower bound, a two-sided range
passes its bounds through. -/
def create_date_query (field : String) : DOrdered → TQuery
  | DOrdered.less t => TQuery.rangeDate field QBound.unbounded (QBound.excluded t)
  | DOrdered.lessEqual t => TQuery.rangeDate field QBound.unbounded (QBound.included t)
  | DOrdered.greater t => TQuery.rangeDate field (QBound.excluded t) QBound.unbounded
  | DOrdered.greaterEqual t => TQuery.rangeDate field (QBound.included t) QBound.unbounded
  | DOrdered.range lo hi => TQuery.rangeDate field lo hi

mutual

/-- Modelled from the spec: `term2query` from the `index` crate (not among
the provided sources): a match lowers through the per-resource lowering, a
negation to a single must-not boolean clause, a conjunction to a boolean
intersection (all clauses Must), a disjunction to a boolean union (all
clauses Should). -/
def term2query {α : Type} (f : α → TQuery) : QTerm α → TQuery
  | QTerm.match_ r => f r
  | QTerm.not_ t => TQuery.boolean [(TOccur.mustNot, term2query f t)]
  | QTerm.and_ ts => TQuery.boolean (term2queryList f TOccur.must ts)
  | QTerm.or_ ts => TQuery.boolean (term2queryList f TOccur.should ts)

/-- The clause list of a lowered conjunction/disjunction. -/
def term2queryList {α : Type} (f : α → TQuery) (occ : TOccur) :
    List (QTerm α) → List (TOccur × TQuery)
  | [] => []
  | t :: rest => (occ, term2query f t) :: term2queryList f occ rest

end

/-- The field names registered by the vulnerabilities `Index::new`
(vexination/index/src/lib.rs:244-275). -/
structure VexFields where
  id : String
  documentStatus : String
  title : String
  description : String
  cve : String
  advisoryInitial : String
  advisoryCurrent : String
  cveRelease : String
  cveDiscovery : String
  severity : String
  cvss : String
  productStatus : String

/-- The concrete vulnerabilities schema fields. -/
def vexFields : VexFields :=
  { id := "id", title := "title", description := "description", cve := "cve"
    severity := "severity", documentStatus := "document_status"
    productStatus := "product_status", cvss := "cvss"
    advisoryInitial := "advisory_initial_date", advisoryCurrent := "advisory_current_date"
    cveDiscovery := "cve_discovery_date", cveRelease := "cve_release_date" }

/-- The `Vulnerabilities` resource enum of `vexination_model` (that crate
is not among the provided sources); its variants and payloads are
transcribed from the arms of `resource2query`
(vexination/index/src/lib.rs:277-366). -/
inductive VulnResource where
  | id (p : Primary)
  | cve (p : Primary)
  | description (p : Primary)
  | title (p : Primary)
  | package (p : Primary)
  | severity (p : Primary)
  | status (p : Primary)
  | final
  | critical
  | high
  | medium
  | low
  | cvss (o : FOrdered)
  | initial (o : DOrdered)
  | release (o : DOrdered)
  | discovery (o : DOrdered)
deriving DecidableEq

/-- `resource2query` of the vulnerabilities index
(vexination/index/src/lib.rs:277-366). -/
def vexResource2query : VulnResource → TQuery
  | VulnResource.id p =>
    let ov := primary2occur p
    create_boolean_query ov.1 vexFields.id ov.2
  | VulnResource.cve p =>
    let ov := primary2occur p
    create_boolean_query ov.1 vexFields.cve ov.2
  | VulnResource.description p =>
    let ov := primary2occur p
    create_boolean_query ov.1 vexFields.description ov.2
  | VulnResource.title p =>
    let ov := primary2occur p
    create_boolean_query ov.1 vexFields.title ov.2
  | VulnResource.package p =>
    let ov := primary2occur p
    create_boolean_query ov.1 vexFields.productStatus ov.2
  | VulnResource.severity p =>
    let ov := primary2occur p
    create_boolean_query ov.1 vexFields.severity ov.2
  | VulnResource.status p =>
    let ov := primary2occur p
    create_boolean_query ov.1 vexFields.documentStatus ov.2
  | VulnResource.final => create_boolean_query TOccur.must vexFields.documentStatus "final"
  | VulnResource.critical => create_boolean_query TOccur.must vexFields.severity "critical"
  | VulnResource.high => create_boolean_query TOccur.must vexFields.severity "high"
  | VulnResource.medium => create_boolean_query TOccur.must vexFields.severity "medium"
  | VulnResource.low => create_boolean_query TOccur.must vexFields.severity "low"
  | VulnResource.cvss o =>
    match o with
    | FOrdered.less e => TQuery.rangeF64 vexFields.cvss QBound.unbounded (QBound.excluded e)
    | FOrdered.lessEqual e => TQuery.rangeF64 vexFields.cvss QBound.unbounded (QBound.included e)
    | FOrdered.greater e => TQuery.rangeF64 vexFields.cvss (QBound.excluded e) QBound.unbounded
    | FOrdered.greaterEqual e =>
      TQuery.rangeF64 vexFields.cvss (QBound.included e) QBound.unbounded
    | FOrdered.range lo hi => TQuery.rangeF64 vexFields.cvss lo hi
  | VulnResource.initial o => create_date_query vexFields.advisoryInitial o
  | VulnResource.release o =>
    TQuery.boolean [(TOccur.should, create_date_query vexFields.advisoryCurrent o),
                    (TOccur.should, create_date_query vexFields.cveRelease o)]
  | VulnResource.discovery o => create_date_query vexFields.cveDiscovery o

/-- A parsed sikula query: the term tree (the sorting directives play no
role in the lowerings under study). -/
structure SkQuery (α : Type) where
  term : QTerm α

/-- `prepare_query` of the vulnerabilities index
(vexination/index/src/lib.rs:182-193): parse, compact, lower.  There is no
empty-string special case.  The sikula string parse is external input. -/
def prepareVulnQuery (parse : String → Except String (SkQuery VulnResource)) (q : String) :
    Except SearchError TQuery :=
  match parse q with
  | Except.error e => Except.error (SearchError.parseFailure e)
  | Except.ok query => Except.ok (term2query vexResource2query query.term.compact)

/-- The field names registered by the packages `Index::new`
(bombastic/index/src/lib.rs:78-102). -/
structure PkgFields where
  sbomId : String
  dependent : String
  cpe : String
  name : String
  purl : String
  ptype : String
  pnamespace : String
  created : String
  pname : String
  pversion : String
  description : String
  sha256 : String
  license : String
  supplier : String
  qualifiers : String
  classifier : String

/-- The concrete packages schema fields. -/
def pkgFields : PkgFields :=
  { sbomId := "sbom_id", dependent := "dependent", cpe := "cpe", name := "name"
    purl := "purl", ptype := "ptype", pnamespace := "pnamespace", created := "created"
    pname := "pname", pversion := "pversion", description := "description"
    sha256 := "sha256", license := "license", supplier := "supplier"
    qualifiers := "qualifiers", classifier := "classifier" }

/-- The `Packages` resource enum of `bombastic_model` (that crate is not
among the provided sources); its variants and payloads are transcribed
from the arms of `resource2query` (bombastic/index/src/lib.rs:291-405). -/
inductive PkgResource where
  | dependent (p : Primary)
  | packageName (p : Primary)
  | purl (p : Primary)
  | ptype (p : Primary)
  | nspace (p : Primary)
  | name (p : Primary)
  | version (p : Primary)
  | created (o : DOrdered)
  | description (p : Primary)
  | digest (p : Primary)
  | license (p : Primary)
  | supplier (p : Primary)
  | qualifier (p : Primary)
  | application
  | library
  | framework
  | container
  | operatingSystem
  | device
  | firmware
  | file
deriving DecidableEq

/-- `resource2query` of the packages index
(bombastic/index/src/lib.rs:291-405); the classifier predicates use the
CycloneDX `Classification` display strings. -/
def pkgResource2query : PkgResource → TQuery
  | PkgResource.dependent p =>
    let ov := primary2occur p
    create_boolean_query ov.1 pkgFields.dependent ov.2
  | PkgResource.packageName p =>
    let ov := primary2occur p
    create_boolean_query ov.1 pkgFields.name ov.2
  | PkgResource.purl p =>
    let ov := primary2occur p
    create_boolean_query ov.1 pkgFields.purl ov.2
  | PkgResource.ptype p =>
    let ov := primary2occur p
    create_boolean_query ov.1 pkgFields.ptype ov.2
  | PkgResource.nspace p =>
    let ov := primary2occur p
    create_boolean_query ov.1 pkgFields.pnamespace ov.2
  | PkgResource.name p =>
    let ov := primary2occur p
    create_boolean_query ov.1 pkgFields.pname ov.2
  | PkgResource.version p =>
    let ov := primary2occur p
    create_boolean_query ov.1 pkgFields.pversion ov.2
  | PkgResource.created o => create_date_query pkgFields.created o
  | PkgResource.description p =>
    let ov := primary2occur p
    create_boolean_query ov.1 pkgFields.description ov.2
  | PkgResource.digest p =>
    let ov := primary2occur p
    create_boolean_query ov.1 pkgFields.sha256 ov.2
  | PkgResource.license p =>
    let ov := primary2occur p
    create_boolean_query ov.1 pkgFields.license ov.2
  | PkgResource.supplier p =>
    let ov := primary2occur p
    create_boolean_query ov.1 pkgFields.supplier ov.2
  | PkgResource.qualifier p =>
    let ov := primary2occur p
    create_boolean_query ov.1 pkgFields.qualifiers ov.2
  | PkgResource.application =>
    create_boolean_query TOccur.must pkgFields.classifier "application"
  | PkgResource.library => create_boolean_query TOccur.must pkgFields.classifier "library"
  | PkgResource.framework => create_boolean_query TOccur.must pkgFields.classifier "framework"
  | PkgResource.container => create_boolean_query TOccur.must pkgFields.classifier "container"
  | PkgResource.operatingSystem =>
    create_boolean_query TOccur.must pkgFields.classifier "operating-system"
  | PkgResource.device => create_boolean_query TOccur.must pkgFields.classifier "device"
  | PkgResource.firmware => create_boolean_query TOccur.must pkgFields.classifier "firmware"
  | PkgResource.file => create_boolean_query TOccur.must pkgFields.classifier "file"

/-- `prepare_query` of the packages index
(bombastic/index/src/lib.rs:441-456): the empty string short-circuits to
`AllQuery`; otherwise parse, compact, lower. -/
def preparePackagesQuery (parse : String → Except String (SkQuery PkgResource)) (q : String) :
    Except SearchError TQuery :=
  if q = "" then Except.ok TQuery.all
  else
    match parse q with
    | Except.error e => Except.error (SearchError.parseFailure e)
    | Except.ok query => Except.ok (term2query pkgResource2query query.term.compact)

/-- The `Vulnerabilities` resource enum of
`vexination/index/src/search.rs:4-12`. -/
inductive Vulnerabilities where
  | id (p : Primary)
  | cve (p : Primary)
  | title (p : Primary)
  | description (p : Primary)
  | status (p : Primary)
  | severity (p : Primary)
deriving DecidableEq

/-- `VulnerabilitiesScope` (vexination/index/src/search.rs:27-35). -/
inductive VulnerabilitiesScope where
  | id
  | cve
  | title
  | description
  | status
  | severity
deriving DecidableEq

/-- The sikula errors constructed by `parse_query`. -/
inductive SkError where
  | parseFailure (msg : String)
  | expr
  | unknownPredicate (q : List String)
  | unknownQualifier (q : List String)
  | unknownScopeQualifier (q : List String)
  | unknownSortQualifier (q : List String)
deriving DecidableEq

/-- `FromQualifier for VulnerabilitiesScope`
(vexination/index/src/search.rs:37-51). -/
def scopeFromQualifier : List String → Except Unit VulnerabilitiesScope
  | ["id"] => Except.ok VulnerabilitiesScope.id
  | ["cve"] => Except.ok VulnerabilitiesScope.cve
  | ["title"] => Except.ok VulnerabilitiesScope.title
  | ["description"] => Except.ok VulnerabilitiesScope.description
  | ["status"] => Except.ok VulnerabilitiesScope.status
  | ["severity"] => Except.ok VulnerabilitiesScope.severity
  | _ => Except.error ()

/-- `default_scopes` (vexination/index/src/search.rs:58-67). -/
def default_scopes : List VulnerabilitiesScope :=
  [VulnerabilitiesScope.id, VulnerabilitiesScope.cve, VulnerabilitiesScope.title,
   VulnerabilitiesScope.description, VulnerabilitiesScope.severity,
   VulnerabilitiesScope.status]

/-- A `sikula::mir` expression as `parse_query` consumes it: a named
predicate, or a simple expression (its payload standing for the expression
text). -/
inductive MirExpression where
  | predicate
  | simple (expr : String)

/-- One `sikula::mir` term: inversion flag, qualifier path, expression. -/
structure MirTerm where
  invert : Bool
  qualifier : List String
  expression : MirExpression

/-- A `sikula::mir::Query`: `in:` scope restrictions, terms, and sorting
directives (each a qualifier path). -/
structure MirQuery where
  scope : List (List String)
  terms : List MirTerm
  sorting : List (List String)

/-- The scope resolution of `parse_query`
(vexination/index/src/search.rs:79-89), non-empty case: each `in:`
qualifier must resolve. -/
def resolveScopesList : List (List String) → Except SkError (List VulnerabilitiesScope)
  | [] => Except.ok []
  | q :: rest =>
    match scopeFromQualifier q with
    | Except.error _ => Except.error (SkError.unknownScopeQualifier q)
    | Except.ok s =>
      match resolveScopesList rest with
      | Except.error e => Except.error e
      | Except.ok ss => Except.ok (s :: ss)

/-- The scope resolution of `parse_query`: the default scopes when no `in:`
restriction is given. -/
def resolveScopes (scope : List (List String)) : Except SkError (List VulnerabilitiesScope) :=
  if scope.isEmpty then Except.ok default_scopes else resolveScopesList scope

/-- The per-scope match of the bare-term branch of `parse_query`
(vexination/index/src/search.rs:107-129). -/
def scopeMatch (p : Primary) : VulnerabilitiesScope → QTerm Vulnerabilities
  | VulnerabilitiesScope.id => QTerm.match_ (Vulnerabilities.id p)
  | VulnerabilitiesScope.cve => QTerm.match_ (Vulnerabilities.cve p)
  | VulnerabilitiesScope.title => QTerm.match_ (Vulnerabilities.title p)
  | VulnerabilitiesScope.description => QTerm.match_ (Vulnerabilities.description p)
  | VulnerabilitiesScope.severity => QTerm.match_ (Vulnerabilities.severity p)
  | VulnerabilitiesScope.status => QTerm.match_ (Vulnerabilities.status p)

/-- The `for scope in &scopes` loop of the bare-term branch: the
expression is converted once per scope (`into_expression`, an external
sikula call passed in as `intoPrimary`) and wrapped in the scope's match
term. -/
def translateScopeTerm (intoPrimary : String → Except SkError Primary) (e : String) :
    List VulnerabilitiesScope → Except SkError (List (QTerm Vulnerabilities))
  | [] => Except.ok []
  | s :: rest =>
    match intoPrimary e with
    | Except.error err => Except.error err
    | Except.ok p =>
      match translateScopeTerm intoPrimary e rest with
      | Except.error err => Except.error err
      | Except.ok ts => Except.ok (scopeMatch p s :: ts)

/-- The body of the `for term in query.terms` loop of `parse_query`
(vexination/index/src/search.rs:92-144): named predicates lower to fixed
field/value matches, a bare simple term fans out over the scopes as an OR,
an `id`-qualified term lowers to an id match, anything else is an unknown
predicate/qualifier error; a leading negation wraps the term in `Not`. -/
def translateTerm (intoPrimary : String → Except SkError Primary)
    (intoQualified : String → List String → Except SkError Primary)
    (scopes : List VulnerabilitiesScope) (term : MirTerm) :
    Except SkError (QTerm Vulnerabilities) :=
  let base : Except SkError (QTerm Vulnerabilities) :=
    match term.expression with
    | MirExpression.predicate =>
      match term.qualifier with
      | ["final"] => Except.ok (QTerm.match_ (Vulnerabilities.status (Primary.equal "final")))
      | ["critical"] =>
        Except.ok (QTerm.match_ (Vulnerabilities.severity (Primary.equal "critical")))
      | ["high"] => Except.ok (QTerm.match_ (Vulnerabilities.severity (Primary.equal "high")))
      | ["medium"] => Except.ok (QTerm.match_ (Vulnerabilities.severity (Primary.equal "medium")))
      | ["low"] => Except.ok (QTerm.match_ (Vulnerabilities.severity (Primary.equal "low")))
      | q => Except.error (SkError.unknownPredicate q)
    | MirExpression.simple e =>
      match term.qualifier with
      | [] =>
        match translateScopeTerm intoPrimary e scopes with
        | Except.error err => Except.error err
        | Except.ok ts => Except.ok (QTerm.or_ ts)
      | "id" :: n =>
        match intoQualified e n with
        | Except.error err => Except.error err
        | Except.ok p => Except.ok (QTerm.match_ (Vulnerabilities.id p))
      | q => Except.error (SkError.unknownQualifier q)
  match base with
  | Except.error err => Except.error err
  | Except.ok t => Except.ok (if term.invert then QTerm.not_ t else t)

/-- The terms loop of `parse_query`, left to right. -/
def translateTerms (intoPrimary : String → Except SkError Primary)
    (intoQualified : String → List String → Except SkError Primary)
    (scopes : List VulnerabilitiesScope) :
    List MirTerm → Except SkError (List (QTerm Vulnerabilities))
  | [] => Except.ok []
  | t :: rest =>
    match translateTerm intoPrimary intoQualified scopes t with
    | Except.error err => Except.error err
    | Except.ok tt =>
      match translateTerms intoPrimary intoQualified scopes rest with
      | Except.error err => Except.error err
      | Except.ok ts => Except.ok (tt :: ts)

/-- `parse_query` (vexination/index/src/search.rs:69-159), from the
`sikula::mir` query on (the string lexing stage is external): resolve
scopes, translate the terms, reject any sorting directive (the sortable
qualifier set is empty), and return the compacted conjunction. -/
def vulnParseQueryFromMir (intoPrimary : String → Except SkError Primary)
    (intoQualified : String → List String → Except SkError Primary)
    (q : MirQuery) : Except SkError (SkQuery Vulnerabilities) :=
  match resolveScopes q.scope with
  | Except.error e => Except.error e
  | Except.ok scopes =>
    match translateTerms intoPrimary intoQualified scopes q.terms with
    | Except.error e => Except.error e
    | Except.ok terms =>
      match q.sorting with
      | [] => Except.ok { term := (QTerm.and_ terms).compact }
      | s :: _ => Except.error (SkError.unknownSortQualifier s)

/-! ## Claims about the query compilers -/

/-- Modelled from the spec: the sikula parse of the empty query string
(the lexer is an external collaborator): the empty string lexes to a query
with no terms, i.e. an empty conjunction. -/
def emptyParseVuln : String → Except String (SkQuery VulnResource) :=
  fun _ => Except.ok { term := QTerm.and_ [] }

/-- A committed document satisfying every term and carrying values on
every fast field — a document that any non-degenerate query matches. -/
def fullDocView : DocView :=
  { hasTerm := fun _ _ => true, f64Val := fun _ => some 5, dateVal := fun _ => some 0 }

/-- C7 counterexample: the vulnerabilities `prepare_query` has no
empty-string special case — the empty string lowers to a boolean query
with no clauses, which does not match even a document satisfying every
term, so the compiled empty query does not match every committed
document. -/
theorem C7_counterexample_vuln_empty_query_matches_nothing :
    prepareVulnQuery emptyParseVuln "" = Except.ok (TQuery.boolean []) ∧
    TQuery.matches fullDocView (TQuery.boolean []) = false :=
  ⟨rfl, rfl⟩

/-- C7 (amended): the packages compiler special-cases the empty string to
`AllQuery`, which matches every document; the vulnerabilities compiler has
no such case — the empty string parses to an empty conjunction, which
lowers to a boolean query with no clauses and matches no document.  Both
compilers do return `Ok` on the empty string. -/
theorem C7_amended_empty_query_behavior :
    (∀ parse : String → Except String (SkQuery PkgResource),
      preparePackagesQuery parse "" = Except.ok TQuery.all) ∧
    (∀ view : DocView, TQuery.matches view TQuery.all = true) ∧
    prepareVulnQuery emptyParseVuln "" = Except.ok (TQuery.boolean []) ∧
    (∀ view : DocView, TQuery.matches view (TQuery.boolean []) = false) :=
  ⟨fun _ => rfl, fun _ => rfl, rfl, fun _ => rfl⟩

/-- Auxiliary: disjunction truth is the list-`any` of member truth. -/
theorem qtermsAny_eq_any {α : Type} (sat : α → Bool) (l : List (QTerm α)) :
    qtermsAny sat l = l.any (QTerm.eval sat) := by
  induction l with
  | nil => rfl
  | cons t rest ih => simp [qtermsAny, ih]

/-- C8: a bare term with no field qualifier and no `in:` restriction
expands to an OR over exactly the six default scopes id, cve, title,
description, severity, status — and the truth of an OR is invariant under
permutation of its member list, so the match set does not depend on the
order of the default-scope list. -/
theorem C8_default_scope_fan_out :
    default_scopes =
      [VulnerabilitiesScope.id, VulnerabilitiesScope.cve, VulnerabilitiesScope.title,
       VulnerabilitiesScope.description, VulnerabilitiesScope.severity,
       VulnerabilitiesScope.status] ∧
    (∀ (intoPrimary : String → Except SkError Primary)
        (intoQualified : String → List String → Except SkError Primary)
        (e : String) (p : Primary), intoPrimary e = Except.ok p →
      vulnParseQueryFromMir intoPrimary intoQualified
          { scope := [], sorting := []
            terms := [{ invert := false, qualifier := [], expression := MirExpression.simple e }] } =
        Except.ok { term := (QTerm.or_
          [QTerm.match_ (Vulnerabilities.id p), QTerm.match_ (Vulnerabilities.cve p),
           QTerm.match_ (Vulnerabilities.title p), QTerm.match_ (Vulnerabilities.description p),
           QTerm.match_ (Vulnerabilities.severity p), QTerm.match_ (Vulnerabilities.status p)]) }) ∧
    (∀ {α : Type} (sat : α → Bool) (l l' : List (QTerm α)), l.Perm l' →
      QTerm.eval sat (QTerm.or_ l) = QTerm.eval sat (QTerm.or_ l')) := by
  refine ⟨rfl, ?_, ?_⟩
  · intro intoPrimary intoQualified e p h
    simp [vulnParseQueryFromMir, resolveScopes, translateTerms, translateTerm,
      translateScopeTerm, h, default_scopes, scopeMatch, QTerm.compact, compactList]
  · intro α sat l l' hperm
    simp only [QTerm.eval, qtermsAny_eq_any]
    cases hb : l'.any (QTerm.eval sat) with
    | true =>
      rw [List.any_eq_true] at hb ⊢
      obtain ⟨x, hx, hfx⟩ := hb
      exact ⟨x, hperm.mem_iff.mpr hx, hfx⟩
    | false =>
      rw [List.any_eq_false] at hb ⊢
      intro x hx
      exact hb x (hperm.mem_iff.mp hx)

/-- `into_expression` behavior used for the closed C8 witness: every
expression becomes a loose primary. -/
def constPrimaryParse : String → Except SkError Primary :=
  fun s => Except.ok (Primary.inexact s)

/-- Qualified variant of `constPrimaryParse`. -/
def constQualifiedParse : String → List String → Except SkError Primary :=
  fun s _ => Except.ok (Primary.inexact s)

/-- Closed witness for `C8_default_scope_fan_out` at the bare term
`openssl`. -/
theorem C8_witness :
    vulnParseQueryFromMir constPrimaryParse constQualifiedParse
        { scope := [], sorting := []
          terms := [{ invert := false, qualifier := []
                      expression := MirExpression.simple "openssl" }] } =
      Except.ok { term := (QTerm.or_
        [QTerm.match_ (Vulnerabilities.id (Primary.inexact "openssl")),
         QTerm.match_ (Vulnerabilities.cve (Primary.inexact "openssl")),
         QTerm.match_ (Vulnerabilities.title (Primary.inexact "openssl")),
         QTerm.match_ (Vulnerabilities.description (Primary.inexact "openssl")),
         QTerm.match_ (Vulnerabilities.severity (Primary.inexact "openssl")),
         QTerm.match_ (Vulnerabilities.status (Primary.inexact "openssl"))]) } :=
  C8_default_scope_fan_out.2.1 constPrimaryParse constQualifiedParse "openssl"
    (Primary.inexact "openssl") rfl

/-- C9: the cvss comparison lowers to a range query whose bounds match the
operator exactly (`<` excluded upper, `<=` included upper, `>` excluded
lower, `>=` included lower, a two-sided range passed through), and the
lowered conjunction `cvss:>X AND cvss:<X` matches no document. -/
theorem C9_cvss_range_bounds_exact :
    (∀ e : Rat,
      vexResource2query (VulnResource.cvss (FOrdered.less e)) =
          TQuery.rangeF64 vexFields.cvss QBound.unbounded (QBound.excluded e) ∧
      vexResource2query (VulnResource.cvss (FOrdered.lessEqual e)) =
          TQuery.rangeF64 vexFields.cvss QBound.unbounded (QBound.included e) ∧
      vexResource2query (VulnResource.cvss (FOrdered.greater e)) =
          TQuery.rangeF64 vexFields.cvss (QBound.excluded e) QBound.unbounded ∧
      vexResource2query (VulnResource.cvss (FOrdered.greaterEqual e)) =
          TQuery.rangeF64 vexFields.cvss (QBound.included e) QBound.unbounded) ∧
    (∀ lo hi : QBound Rat,
      vexResource2query (VulnResource.cvss (FOrdered.range lo hi)) =
          TQuery.rangeF64 vexFields.cvss lo hi) ∧
    (∀ (x : Rat) (view : DocView),
      TQuery.matches view
          (term2query vexResource2query
            (QTerm.and_ [QTerm.match_ (VulnResource.cvss (FOrdered.greater x)),
                         QTerm.match_ (VulnResource.cvss (FOrdered.less x))])) = false) := by
  refine ⟨fun e => ⟨rfl, rfl, rfl, rfl⟩, fun lo hi => rfl, ?_⟩
  intro x view
  cases hv : view.f64Val vexFields.cvss with
  | none =>
    simp [term2query, term2queryList, vexResource2query, TQuery.matches, clausesMustAll,
      clausesMustNotAny, clausesShouldAny, clausesHasMust, lowerOk, upperOk, hv]
  | some v =>
    simp [term2query, term2queryList, vexResource2query, TQuery.matches, clausesMustAll,
      clausesMustNotAny, clausesShouldAny, clausesHasMust, lowerOk, upperOk, hv]
    exact fun h => le_of_lt h
